import Mathlib

/-!
Shallow embedding of the label-printer communication layer of
`rfid_manager.py` (the `HoneywellPrinter` driver, the `LabelGenerator`
ZPL renderer, and the print flows of `ReadEncodePanel._print_label` and
`BatchPanel._batch_print`), together with proofs about it.

Modelling conventions:
* Python strings are Lean `String`s; byte strings received from sockets
  are `List Nat` (byte values).
* The wall clock (`datetime.now().strftime(...)`) is passed in as an
  explicit `ts : String` argument; each rendering function is otherwise
  a pure function of its inputs, exactly as in the source.
* Socket I/O is modelled by oracle values: `ProbeResult` describes what
  the detection probe observes, `NetEvent` describes what happens during
  a network send, and the platform-specific USB delivery outcome is
  passed in as a `Bool × String` pair.  A Python exception escaping the
  socket layer is represented by the corresponding constructor
  (`connFail`, `refused`, `osError`, `otherExc`); the Lean functions
  being total models the fact that the Python functions catch every
  exception and return a value.
* Effects (detection probes, payloads handed to a transport, backup
  files written) are returned as explicit traces so that theorems can
  speak about what was sent and what was persisted.
-/

namespace RFIDM

/-- Python `a or b` on strings: `b` when `a` is empty, else `a`. -/
def pyOr (a b : String) : String := if a = "" then b else a

/-- Python truthiness of an optional string: `None` and `""` are falsy. -/
def optTruthy : Option String → Bool
  | none => false
  | some s => s != ""

/-- Python `e or d` where `e` is either `None` or a string. -/
def pyOrOpt (e : Option String) (d : String) : String :=
  match e with
  | none => d
  | some s => if s = "" then d else s

/-- Python `s[:n]` (slicing by code points). -/
def pySlice (s : String) (n : Nat) : String := String.mk (s.data.take n)

/-- Python `str.lower()` (the code only relies on the ASCII range). -/
def pyLower (s : String) : String := String.mk (s.data.map Char.toLower)

/-- Whitespace characters removed by Python `str.strip()`. -/
def pyIsSpace (c : Char) : Bool :=
  c = ' ' || c = '\t' || c = '\n' || c = '\r' || c = '\x0b' || c = '\x0c'

/-- Python `str.strip()`. -/
def pyStrip (s : String) : String :=
  String.mk (((s.data.dropWhile pyIsSpace).reverse.dropWhile pyIsSpace).reverse)

/-- Python `s.split("(")[0].strip()`, used to shorten the tag-type text. -/
def pySplitParen (s : String) : String :=
  pyStrip (String.mk (s.data.takeWhile (fun c => c != '(')))

/-- Python `s or None` on a (stripped) string. -/
def optOfStr (s : String) : Option String :=
  if s = "" then none else some s

/-- Hexadecimal digits used by the JSON \uXXXX escapes of `json.dumps`. -/
def hexDigitChars : List Char := "0123456789abcdef".data

/-- The n-th lowercase hexadecimal digit. -/
def hexDigit (n : Nat) : Char := hexDigitChars.getD n '0'

/-- One JSON \uXXXX escape (four hex digits). -/
def uEscape (n : Nat) : String :=
  String.mk ['\\', 'u', hexDigit (n / 4096 % 16), hexDigit (n / 256 % 16),
             hexDigit (n / 16 % 16), hexDigit (n % 16)]

/-- How `json.dumps` (with its default `ensure_ascii=True`) renders one
character inside a string literal. -/
def jsonEscapeChar (c : Char) : String :=
  if c = '\\' then "\\\\"
  else if c = '"' then "\\\""
  else if c = '\n' then "\\n"
  else if c = '\r' then "\\r"
  else if c = '\t' then "\\t"
  else if c.toNat = 8 then "\\b"
  else if c.toNat = 12 then "\\f"
  else if c.toNat < 32 then uEscape c.toNat
  else if c.toNat < 127 then String.mk [c]
  else if c.toNat < 65536 then uEscape c.toNat
  else uEscape (55296 + (c.toNat - 65536) / 1024)
       ++ uEscape (56320 + (c.toNat - 65536) % 1024)

/-- Concatenation of a list of strings. -/
def strConcat : List String → String
  | [] => ""
  | s :: r => s ++ strConcat r

/-- JSON rendering of a Python string by `json.dumps`. -/
def jsonString (s : String) : String :=
  "\"" ++ strConcat (s.data.map jsonEscapeChar) ++ "\""

/-- JSON rendering of a nullable Python string (`None` renders as null). -/
def jsonOptString (e : Option String) : String :=
  match e with
  | none => "null"
  | some s => jsonString s

/-- What the detection probe of `detect_language` observes on the wire:
either some exception was raised while connecting/sending (`connFail`),
or a byte string was received (`[]` both for an empty read and for the
inner `recv` failing, which the source maps to `b""`). -/
inductive ProbeResult where
  | connFail
  | response (resp : List Nat)
deriving DecidableEq

/-- Python `bytes.upper()`. -/
def bytesUpper (l : List Nat) : List Nat :=
  l.map (fun b => if 97 ≤ b ∧ b ≤ 122 then b - 32 else b)

/-- What happens during one `print_network` call: connection refused, an
`OSError` with message text `msg`, some other exception, or the payload
was sent and the brief read returned `recv` (`none` when `recv` raised). -/
inductive NetEvent where
  | refused
  | osError (msg : String)
  | otherExc (msg : String)
  | sent (recv : Option (List Nat))
deriving DecidableEq

/-- Python `needle in hay` on strings (substring containment). -/
def pyInStr (needle hay : String) : Prop := needle.data <:+: hay.data

instance (n h : String) : Decidable (pyInStr n h) := by
  unfold pyInStr
  infer_instance

/-- Observable I/O effects of the print flows: one detection probe, or a
payload handed to the network/USB transport. -/
inductive Ev where
  | detect
  | sendNet (data : String)
  | sendUsb (data : String)
deriving DecidableEq

namespace HoneywellPrinter

/-- HoneywellPrinter.ipl of rfid_manager.py (lines 278-306): the IPL
label, STX/ETX framed, with the RFID block emitted only when `epc` is
truthy. -/
def ipl (ts asset_id : String) (epc : Option String)
    (name location tag_type : String) : String :=
  "\x02"
  ++ "n\r\n"
  ++ "M t\r\n"
  ++ "S l1;c15,3\r\n"
  ++ "d PC\r\n"
  ++ "B 20,10,0,1,2,2,50,B,\"" ++ pySlice (pyOr name asset_id) 28 ++ "\"\r\n"
  ++ "T 20,70,0,3,1,1,\"Asset ID: " ++ asset_id ++ "\"\r\n"
  ++ "T 20,100,0,3,1,1,\"EPC:      " ++ pyOrOpt epc "UNASSIGNED" ++ "\"\r\n"
  ++ "T 20,128,0,3,1,1,\"Type:     " ++ tag_type ++ "\"\r\n"
  ++ "T 20,150,0,3,1,1,\"Loc:      " ++ pyOr location "—" ++ "\"\r\n"
  ++ "B 20,175,0,1A,3,1,60,\"" ++ asset_id ++ "\"\r\n"
  ++ "T 20,260,0,3,1,1,\"" ++ ts ++ "\"\r\n"
  ++ (if optTruthy epc then
        "R 1,E200," ++ pyOrOpt epc "0000000000000000000000" ++ "\r\n"
      else "")
  ++ "P 1\r\n"
  ++ "\x03"

/-- The `qr_data` value of HoneywellPrinter.zpl:
`json.dumps` of the id/epc pair, with `epc or ""`. -/
def qrDataHW (asset_id : String) (epc : Option String) : String :=
  "\x7b\"id\": " ++ jsonString asset_id ++ ", \"epc\": "
  ++ jsonString (pyOrOpt epc "") ++ "\x7d"

/-- HoneywellPrinter.zpl of rfid_manager.py (lines 309-340): the ZPL
label, `^XA`/`^XZ` framed, with the `^RFWM` directive emitted only when
`epc` is truthy (inside that branch the f-string interpolates the raw
`epc` value, which is a nonempty string there). -/
def zpl (ts asset_id : String) (epc : Option String)
    (name location tag_type : String) : String :=
  "^XA\n"
  ++ "^CI28\n"
  ++ "^PW812\n"
  ++ "^LL406\n"
  ++ "^FO0,0^GB812,52,52^FS\n"
  ++ "^FO18,10^A0N,30,30^FR^FD" ++ pySlice (pyOr name asset_id) 30 ++ "^FS\n"
  ++ "^FO18,62^A0N,20,20^FDAsset: " ++ asset_id ++ "^FS\n"
  ++ "^FO18,90^A0N,18,18^FDEPC: " ++ pyOrOpt epc "UNASSIGNED" ++ "^FS\n"
  ++ "^FO18,114^A0N,16,16^FDType: " ++ tag_type ++ "^FS\n"
  ++ "^FO18,136^A0N,16,16^FDLoc:  " ++ pyOr location "—" ++ "^FS\n"
  ++ "^FO18,162^BY2,3,55\n"
  ++ "^BCN,55,Y,N,N\n"
  ++ "^FD" ++ asset_id ++ "^FS\n"
  ++ "^FO620,60\n"
  ++ "^BQN,2,4\n"
  ++ "^FDMA," ++ qrDataHW asset_id epc ++ "^FS\n"
  ++ "^FO18,252^A0N,14,14^FD" ++ ts ++ "^FS\n"
  ++ (if optTruthy epc then "^RFWM," ++ epc.getD "" ++ "\n" else "")
  ++ "^XZ\n"

/-- HoneywellPrinter.detect_language of rfid_manager.py (lines 343-372),
as a function of what the probe observed.  Byte values: 2 = STX, 6 = ACK,
21 = NAK, 94 is the caret.  Note the source checks for ZPL markers
before it checks for the ACK/NAK control bytes. -/
def detect_language (pr : ProbeResult) : String :=
  match pr with
  | .connFail => "unknown"
  | .response resp =>
    if resp ≠ [] then
      if resp.take 1 = [2] then "ipl"
      else if 94 ∈ resp ∨ [90, 80, 76] <:+: bytesUpper resp then "zpl"
      else if resp.take 1 = [2] ∨ resp.take 1 = [6] ∨ resp.take 1 = [21] then "ipl"
      else "zpl"
    else "zpl"

/-- HoneywellPrinter.print_network of rfid_manager.py (lines 376-406) as
a function of the socket behaviour.  Byte 21 is the IPL NAK. -/
def print_network (host : String) (port : Nat) (ev : NetEvent) : Bool × String :=
  match ev with
  | .sent recv =>
    match recv with
    | some resp =>
      if resp ≠ [] ∧ resp.take 1 = [21] then
        (false, "Printer returned NACK (check label format)")
      else (true, "OK")
    | none => (true, "OK")
  | .refused =>
    (false, "Connection refused — is printer online at " ++ host ++ ":"
      ++ toString port ++ "?")
  | .osError msg =>
    if pyInStr "timed out" (pyLower msg) then
      (false, "Timeout — printer not responding at " ++ host ++ ":"
        ++ toString port)
    else (false, msg)
  | .otherExc msg => (false, msg)

/-- Result of `print_label`: the `(success, message, language_used)`
triple of the source, plus the trace of I/O effects performed. -/
structure PLResult where
  ok : Bool
  msg : String
  lang : String
  events : List Ev
deriving DecidableEq

/-- HoneywellPrinter.print_label of rfid_manager.py (lines 464-496):
resolve the language (probing once if `language = "auto"`, network mode
and a host is configured), build the label data, then deliver it over
the configured transport.  USB delivery is platform I/O and is passed in
as the oracle outcome `usb`. -/
def print_label (ts asset_id : String) (epc : Option String)
    (name location tag_type : String) (mode host : String) (port : Nat)
    (language : String) (probe : ProbeResult) (net : NetEvent)
    (usb : Bool × String) : PLResult :=
  let lang :=
    if language = "auto" then
      if mode = "network" ∧ host ≠ "" then
        if detect_language probe = "ipl" then "ipl" else "zpl"
      else "zpl"
    else pyLower language
  let detEvs : List Ev :=
    if language = "auto" ∧ mode = "network" ∧ host ≠ "" then [Ev.detect] else []
  let data :=
    if lang = "ipl" then ipl ts asset_id epc name location tag_type
    else zpl ts asset_id epc name location tag_type
  if mode = "network" then
    if host = "" then
      ⟨false, "No printer IP address configured", lang, detEvs⟩
    else
      let r := print_network host port net
      ⟨r.1, r.2, lang, detEvs ++ [Ev.sendNet data]⟩
  else
    ⟨usb.1, usb.2, lang, detEvs ++ [Ev.sendUsb data]⟩

end HoneywellPrinter

namespace LabelGenerator

/-- The `qr_data` value of LabelGenerator.zpl: `json.dumps` of the
id/epc/type triple, where a `None` epc renders as JSON null. -/
def qrData (asset_id : String) (epc : Option String) (tag_type : String) : String :=
  "\x7b\"id\": " ++ jsonString asset_id ++ ", \"epc\": " ++ jsonOptString epc
  ++ ", \"type\": " ++ jsonString tag_type ++ "\x7d"

/-- LabelGenerator.zpl of rfid_manager.py (lines 503-534): the Zebra ZPL
renderer.  Unlike HoneywellPrinter.zpl, its `^RFWM` line is emitted
unconditionally, with a zero placeholder when `epc` is falsy, and the
string ends with `^XZ` without a trailing newline. -/
def zpl (ts asset_id : String) (epc : Option String)
    (name location tag_type : String) : String :=
  "^XA\n^CI28\n^PW812\n^LL406\n^LH0,0\n\n^FO30,20^A0N,28,28^FD"
  ++ pyOr name asset_id
  ++ "^FS\n^FO30,60^A0N,18,18^FDAsset: "
  ++ asset_id
  ++ "^FS\n^FO30,90^A0N,18,18^FDEPC: "
  ++ pyOrOpt epc "UNASSIGNED"
  ++ "^FS\n^FO30,118^A0N,16,16^FDType: "
  ++ tag_type
  ++ "^FS\n^FO30,140^A0N,16,16^FDLoc: "
  ++ pyOr location "—"
  ++ "^FS\n\n^FO30,175^BY2,3,60\n^BCN,60,Y,N,N\n^FD"
  ++ asset_id
  ++ "^FS\n\n^FO600,20\n^BQN,2,4\n^FDMA,"
  ++ qrData asset_id epc tag_type
  ++ "^FS\n\n^FO30,260^A0N,14,14^FD"
  ++ ts
  ++ "^FS\n^FO600,260^A0N,14,14^FDverified^FS\n\n^RFWM,"
  ++ pyOrOpt epc "0000000000000000000000"
  ++ "\n^XZ"

end LabelGenerator

/-- Trace of one ReadEncodePanel._print_label invocation: whether the
request was rejected before the worker started, the print result (none
when rejected) and the backup files written as `(file name, contents)`. -/
structure SingleTrace where
  rejected : Bool
  res : Option HoneywellPrinter.PLResult
  backups : List (String × String)
deriving DecidableEq

/-- ReadEncodePanel._print_label of rfid_manager.py (lines 961-1008):
reject an empty (stripped) asset id before any I/O; otherwise call
HoneywellPrinter.print_label and afterwards always write one backup
file named by the asset id and an extension chosen from the configured
`language` setting (ipl only when the setting is exactly "ipl"),
re-rendering the label in the language named by that extension. -/
def readEncodePrint (ts aidRaw epcRaw name location tagTypeRaw : String)
    (mode host : String) (port : Nat) (language : String)
    (probe : ProbeResult) (net : NetEvent) (usb : Bool × String) : SingleTrace :=
  let aid := pyStrip aidRaw
  let epc := pyStrip epcRaw
  if aid = "" then ⟨true, none, []⟩
  else
    let tt := pySplitParen tagTypeRaw
    let r := HoneywellPrinter.print_label ts aid (optOfStr epc)
      name location tt mode host port language probe net usb
    let ext := if language = "ipl" then "ipl" else "zpl"
    let backupData :=
      if ext = "ipl" then HoneywellPrinter.ipl ts aid (some epc) name location tt
      else HoneywellPrinter.zpl ts aid (some epc) name location tt
    ⟨false, some r, [(aid ++ "." ++ ext, backupData)]⟩

/-- One CSV row of the batch table (the fields _batch_print reads). -/
structure Row where
  asset_id : String
  epc : String
  name : String
  location : String
  type_ : String
deriving DecidableEq

/-- Accumulated state of the _batch_print worker loop. -/
structure BatchState where
  success : Nat
  errors : Nat
  skipped : Nat
  attempts : Nat
  events : List Ev
  backups : List (String × String)
deriving DecidableEq

/-- The per-row loop body of BatchPanel._batch_print (lines 1224-1268):
an empty stripped asset id is counted skipped and the row is passed over
before any encode or send; otherwise print_label is attempted (the k-th
attempt observing `nets k` / `usbs k`), and only a successful attempt
writes a backup file, whose extension follows the language actually
used. -/
def batchStep (ts mode host : String) (port : Nat) (effLang : String)
    (probe : ProbeResult) (nets : Nat → NetEvent) (usbs : Nat → Bool × String)
    (row : Row) (st : BatchState) : BatchState :=
  let aid := pyStrip row.asset_id
  if aid = "" then
    ⟨st.success, st.errors, st.skipped + 1, st.attempts, st.events, st.backups⟩
  else
    let epc : Option String := optOfStr (pyStrip row.epc)
    let tt := pySplitParen row.type_
    let r := HoneywellPrinter.print_label ts aid epc row.name row.location tt
      mode host port effLang probe (nets st.attempts) (usbs st.attempts)
    if r.ok then
      let ext := if r.lang = "ipl" then "ipl" else "zpl"
      let data :=
        if ext = "ipl" then HoneywellPrinter.ipl ts aid epc row.name row.location tt
        else HoneywellPrinter.zpl ts aid epc row.name row.location tt
      ⟨st.success + 1, st.errors, st.skipped, st.attempts + 1,
       st.events ++ r.events, st.backups ++ [(aid ++ "." ++ ext, data)]⟩
    else
      ⟨st.success, st.errors + 1, st.skipped, st.attempts + 1,
       st.events ++ r.events, st.backups⟩

/-- The _batch_print worker loop: `batchStep` over each row in order. -/
def batchLoop (ts mode host : String) (port : Nat) (effLang : String)
    (probe : ProbeResult) (nets : Nat → NetEvent) (usbs : Nat → Bool × String) :
    List Row → BatchState → BatchState
  | [], st => st
  | row :: rest, st =>
    batchLoop ts mode host port effLang probe nets usbs rest
      (batchStep ts mode host port effLang probe nets usbs row st)

/-- BatchPanel._batch_print of rfid_manager.py (lines 1194-1279): `none`
when no rows are loaded (the worker never starts); otherwise the
language is resolved once, before the loop, when the setting is auto,
the transport is network and a host is configured, and the loop then
runs over every row with that effective language. -/
def batch_print (ts : String) (rows : List Row) (mode host : String) (port : Nat)
    (lang : String) (probe : ProbeResult) (nets : Nat → NetEvent)
    (usbs : Nat → Bool × String) : Option BatchState :=
  if rows = [] then none
  else
    let pre : String × List Ev :=
      if lang = "auto" ∧ mode = "network" ∧ host ≠ "" then
        (if HoneywellPrinter.detect_language probe = "ipl" then "ipl" else "zpl",
         [Ev.detect])
      else (lang, [])
    some (batchLoop ts mode host port pre.1 probe nets usbs rows ⟨0, 0, 0, 0, pre.2, []⟩)

/-- Test for the detection event in a trace. -/
def isDetect : Ev → Bool
  | .detect => true
  | _ => false

/-- Test for a transport-delivery event in a trace. -/
def isSend : Ev → Bool
  | .sendNet _ => true
  | .sendUsb _ => true
  | _ => false

/-- The ZPL RFID-write directive marker. -/
def zPat : List Char := "^RFWM".data

/-- The IPL RFID-encode command with its fixed memory-bank identifier. -/
def iPat : List Char := "R 1,E200,".data

/- ──────────────────────────── infrastructure ──────────────────────────── -/

theorem inf_append_left (A : List Char) {p B : List Char} (h : p <:+: B) :
    p <:+: A ++ B := by
  obtain ⟨s, t, e⟩ := h
  exact ⟨A ++ s, t, by rw [← e]; simp [List.append_assoc]⟩

theorem inf_append_right (B : List Char) {p A : List Char} (h : p <:+: A) :
    p <:+: A ++ B := by
  obtain ⟨s, t, e⟩ := h
  exact ⟨s, t ++ B, by rw [← e]; simp [List.append_assoc]⟩

theorem starts_lift {p a : List Char} (b : List Char) (h : p <+: a) :
    p <+: a ++ b :=
  h.trans (List.prefix_append a b)

theorem ends_lift (a : List Char) {p b : List Char} (h : p <:+ b) :
    p <:+ a ++ b :=
  h.trans (List.suffix_append a b)

theorem head_of_append {l : List Char} (u : List Char) (h : l ≠ []) :
    (l ++ u).head? = l.head? := by
  cases l with
  | nil => exact absurd rfl h
  | cons c r => rfl

/-- Decomposition of one occurrence of `p` inside `A ++ B`: it lies in
`A`, lies in `B`, or straddles the junction. -/
theorem occurs_append_cases {p A B : List Char} (h : p <:+: A ++ B) :
    p <:+: A ∨ p <:+: B ∨
      ∃ k, 0 < k ∧ k < p.length ∧ p.take k <:+ A ∧ p.drop k <+: B := by
  obtain ⟨s, t, hst⟩ := h
  rw [List.append_assoc] at hst
  rcases List.append_eq_append_iff.mp hst with ⟨a, hA, hpt⟩ | ⟨c, _, hB⟩
  · rcases List.append_eq_append_iff.mp hpt with ⟨x, ha, _⟩ | ⟨y, hp, hBy⟩
    · exact Or.inl ⟨s, x, by rw [hA, ha, List.append_assoc]⟩
    · by_cases hy : y = []
      · subst hy
        rw [List.append_nil] at hp
        exact Or.inl ⟨s, [], by rw [List.append_nil, hA, hp]⟩
      · by_cases ha0 : a = []
        · subst ha0
          rw [List.nil_append] at hp
          exact Or.inr (Or.inl ⟨[], t, by simp only [List.nil_append]; rw [hp]; exact hBy.symm⟩)
        · refine Or.inr (Or.inr ⟨a.length, List.length_pos.mpr ha0, ?_, ?_, ?_⟩)
          · rw [hp, List.length_append]
            have := List.length_pos.mpr hy
            omega
          · rw [hp, List.take_left]
            exact ⟨s, hA.symm⟩
          · rw [hp, List.drop_left]
            exact ⟨t, hBy.symm⟩
  · exact Or.inr (Or.inl ⟨c, t, by rw [List.append_assoc, ← hB]⟩)

/-- Sufficient condition for `p` not to occur in `A ++ B`. -/
theorem no_occurrence_append {p A B : List Char}
    (hA : ¬ p <:+: A) (hB : ¬ p <:+: B)
    (hJ : ∀ k, 0 < k → k < p.length → ¬ p.take k <:+ A ∨ ¬ p.drop k <+: B) :
    ¬ p <:+: A ++ B := by
  intro h
  rcases occurs_append_cases h with h1 | h2 | ⟨k, hk0, hkl, hs, hp⟩
  · exact hA h1
  · exact hB h2
  · rcases hJ k hk0 hkl with h | h
    · exact h hs
    · exact h hp

/- ──────────────────────────────── C5 ──────────────────────────────────── -/

/-- C5 (corrected): for all label descriptions, both ZPL renderers start
with the ZPL start marker and the IPL renderer is STX/ETX framed; but
HoneywellPrinter.zpl ends with the end marker followed by a newline
(see the counterexample), while LabelGenerator.zpl ends exactly with the
end marker. -/
theorem c5_framing_amended (ts aid : String) (epc : Option String)
    (nm loc tt : String) :
    "^XA".data <+: (HoneywellPrinter.zpl ts aid epc nm loc tt).data ∧
    "^XZ\n".data <:+ (HoneywellPrinter.zpl ts aid epc nm loc tt).data ∧
    "^XA".data <+: (LabelGenerator.zpl ts aid epc nm loc tt).data ∧
    "^XZ".data <:+ (LabelGenerator.zpl ts aid epc nm loc tt).data ∧
    "\x02".data <+: (HoneywellPrinter.ipl ts aid epc nm loc tt).data ∧
    "\x03".data <:+ (HoneywellPrinter.ipl ts aid epc nm loc tt).data := by
  refine ⟨?_, ?_, ?_, ?_, ?_, ?_⟩
  · simp only [HoneywellPrinter.zpl, String.data_append, List.append_assoc]
    exact starts_lift _ (by decide)
  · simp only [HoneywellPrinter.zpl, String.data_append, List.append_assoc]
    repeat apply ends_lift
    decide
  · simp only [LabelGenerator.zpl, String.data_append, List.append_assoc]
    exact starts_lift _ (by decide)
  · simp only [LabelGenerator.zpl, String.data_append, List.append_assoc]
    repeat apply ends_lift
    decide
  · simp only [HoneywellPrinter.ipl, String.data_append, List.append_assoc]
    exact starts_lift _ (by decide)
  · simp only [HoneywellPrinter.ipl, String.data_append, List.append_assoc]
    repeat apply ends_lift
    decide

/-- C5 counterexample: the claim says every ZPL rendering ends with the
characters of the end marker, but HoneywellPrinter.zpl appends a newline
after it, so on this concrete description the marker is not a suffix. -/
theorem c5_framing_claim_false :
    ¬ "^XZ".data <:+
      (HoneywellPrinter.zpl "2024-01-01 00:00" "A1" none "" "" "Standard").data := by
  decide

/- ──────────────────────────────── C6 ──────────────────────────────────── -/

/-- C6 (confirmed): detect_language is a total function of the probe
observation — modelling that every exception path is caught — whose
value is always one of zpl, ipl, unknown, and every connection-level
failure yields unknown. -/
theorem c6_detect_total (pr : ProbeResult) :
    (HoneywellPrinter.detect_language pr = "zpl" ∨
     HoneywellPrinter.detect_language pr = "ipl" ∨
     HoneywellPrinter.detect_language pr = "unknown") ∧
    HoneywellPrinter.detect_language ProbeResult.connFail = "unknown" := by
  refine ⟨?_, rfl⟩
  cases pr with
  | connFail => exact Or.inr (Or.inr rfl)
  | response resp =>
    simp only [HoneywellPrinter.detect_language]
    split
    · split
      · exact Or.inr (Or.inl rfl)
      · split
        · exact Or.inl rfl
        · split
          · exact Or.inr (Or.inl rfl)
          · exact Or.inl rfl
    · exact Or.inl rfl

/- ──────────────────────────────── C2 ──────────────────────────────────── -/

/-- C2 counterexample: the claim classifies any response whose first
byte is 0x06 as IPL, but the source tests for ZPL markers first; on the
response 0x06 0x5E (ACK followed by a caret) the code answers zpl. -/
theorem c2_detect_claim_false :
    HoneywellPrinter.detect_language (ProbeResult.response [6, 94]) = "zpl" ∧
    ("zpl" : String) ≠ "ipl" := by
  exact ⟨rfl, by decide⟩

/-- C2 (corrected): the classification order of detect_language is: a
first byte 0x02 gives IPL; otherwise a ZPL marker (a caret byte, or the
bytes of "ZPL" after ASCII uppercasing) gives ZPL; only then do the
control bytes 0x06/0x15 give IPL; anything else, and an empty or absent
response, gives ZPL. -/
theorem c2_detect_amended (resp : List Nat) :
    (HoneywellPrinter.detect_language (ProbeResult.response []) = "zpl") ∧
    (resp.take 1 = [2] →
      HoneywellPrinter.detect_language (ProbeResult.response resp) = "ipl") ∧
    (resp ≠ [] → resp.take 1 ≠ [2] →
      (94 ∈ resp ∨ [90, 80, 76] <:+: bytesUpper resp) →
      HoneywellPrinter.detect_language (ProbeResult.response resp) = "zpl") ∧
    (resp ≠ [] → ¬ (94 ∈ resp ∨ [90, 80, 76] <:+: bytesUpper resp) →
      (resp.take 1 = [6] ∨ resp.take 1 = [21]) →
      HoneywellPrinter.detect_language (ProbeResult.response resp) = "ipl") ∧
    (resp ≠ [] → resp.take 1 ≠ [2] → resp.take 1 ≠ [6] → resp.take 1 ≠ [21] →
      ¬ (94 ∈ resp ∨ [90, 80, 76] <:+: bytesUpper resp) →
      HoneywellPrinter.detect_language (ProbeResult.response resp) = "zpl") := by
  refine ⟨rfl, ?_, ?_, ?_, ?_⟩
  · intro h2
    have hne : resp ≠ [] := by
      intro h0
      rw [h0] at h2
      exact absurd h2 (by decide)
    simp only [HoneywellPrinter.detect_language]
    rw [if_pos hne, if_pos h2]
  · intro hne h2 hm
    simp only [HoneywellPrinter.detect_language]
    rw [if_pos hne, if_neg h2, if_pos hm]
  · intro hne hm h36
    have h2 : resp.take 1 ≠ [2] := by
      rcases h36 with h | h <;> simp [h]
    simp only [HoneywellPrinter.detect_language]
    rw [if_pos hne, if_neg h2, if_neg hm,
      if_pos (Or.inr (by rcases h36 with h | h; exact Or.inl h; exact Or.inr h))]
  · intro hne h2 h6 h21 hm
    simp only [HoneywellPrinter.detect_language]
    rw [if_pos hne, if_neg h2, if_neg hm, if_neg ?_]
    rintro (h | h | h)
    · exact h2 h
    · exact h6 h
    · exact h21 h

/-- C2 amended witness at concrete responses. -/
theorem c2_detect_amended_witness :
    HoneywellPrinter.detect_language (ProbeResult.response [2, 65]) = "ipl" ∧
    HoneywellPrinter.detect_language (ProbeResult.response [6, 94]) = "zpl" ∧
    HoneywellPrinter.detect_language (ProbeResult.response [6, 65]) = "ipl" ∧
    HoneywellPrinter.detect_language (ProbeResult.response [65]) = "zpl" := by
  refine ⟨(c2_detect_amended [2, 65]).2.1 (by decide),
    (c2_detect_amended [6, 94]).2.2.1 (by decide) (by decide) (by decide),
    (c2_detect_amended [6, 65]).2.2.2.1 (by decide) (by decide) (Or.inl (by decide)),
    (c2_detect_amended [65]).2.2.2.2 (by decide) (by decide) (by decide) (by decide)
      (by decide)⟩

/- ──────────────────────────────── C7 ──────────────────────────────────── -/

/-- C7 (confirmed): print_network is total — every expected failure is a
returned value, never an exception — refused connections, OS errors
whose text mentions a timeout, and other OS errors each produce
success=false with their distinguishing message text, and a response
whose first byte is the NAK byte 0x15 produces success=false with the
NACK message. -/
theorem c7_network_outcomes (host : String) (port : Nat) (msg : String)
    (resp : List Nat) :
    (HoneywellPrinter.print_network host port NetEvent.refused =
      (false, "Connection refused — is printer online at " ++ host ++ ":"
        ++ toString port ++ "?")) ∧
    (pyInStr "timed out" (pyLower msg) →
      HoneywellPrinter.print_network host port (NetEvent.osError msg) =
        (false, "Timeout — printer not responding at " ++ host ++ ":"
          ++ toString port)) ∧
    (¬ pyInStr "timed out" (pyLower msg) →
      HoneywellPrinter.print_network host port (NetEvent.osError msg) =
        (false, msg)) ∧
    (HoneywellPrinter.print_network host port (NetEvent.otherExc msg) =
      (false, msg)) ∧
    (resp ≠ [] → resp.take 1 = [21] →
      HoneywellPrinter.print_network host port (NetEvent.sent (some resp)) =
        (false, "Printer returned NACK (check label format)")) ∧
    (resp.take 1 ≠ [21] →
      HoneywellPrinter.print_network host port (NetEvent.sent (some resp)) =
        (true, "OK")) ∧
    (HoneywellPrinter.print_network host port (NetEvent.sent none) =
      (true, "OK")) := by
  refine ⟨rfl, ?_, ?_, rfl, ?_, ?_, rfl⟩
  · intro h
    simp only [HoneywellPrinter.print_network]
    rw [if_pos h]
  · intro h
    simp only [HoneywellPrinter.print_network]
    rw [if_neg h]
  · intro hne h21
    simp only [HoneywellPrinter.print_network]
    rw [if_pos ⟨hne, h21⟩]
  · intro h21
    simp only [HoneywellPrinter.print_network]
    rw [if_neg (by intro hc; exact h21 hc.2)]

/-- C7 witness at concrete failures. -/
theorem c7_network_outcomes_witness :
    HoneywellPrinter.print_network "printer" 9100 (NetEvent.osError "timed out") =
      (false, "Timeout — printer not responding at printer:9100") ∧
    HoneywellPrinter.print_network "printer" 9100 (NetEvent.osError "host unreachable") =
      (false, "host unreachable") ∧
    HoneywellPrinter.print_network "printer" 9100 (NetEvent.sent (some [21])) =
      (false, "Printer returned NACK (check label format)") ∧
    HoneywellPrinter.print_network "printer" 9100 (NetEvent.sent (some [6])) =
      (true, "OK") := by
  have h := c7_network_outcomes "printer" 9100 "timed out" [21]
  have h2 := c7_network_outcomes "printer" 9100 "host unreachable" [6]
  exact ⟨by simpa using h.2.1 (by decide), h2.2.2.1 (by decide),
    h.2.2.2.2.1 (by decide) (by decide), h2.2.2.2.2.2.1 (by decide)⟩

/- ─────────────────────── print_label helper lemmas ────────────────────── -/

theorem print_label_lang (ts aid : String) (epc : Option String)
    (nm loc tt mode host : String) (port : Nat) (language : String)
    (probe : ProbeResult) (net : NetEvent) (usb : Bool × String) :
    (HoneywellPrinter.print_label ts aid epc nm loc tt mode host port language
      probe net usb).lang =
      (if language = "auto" then
        if mode = "network" ∧ host ≠ "" then
          if HoneywellPrinter.detect_language probe = "ipl" then "ipl" else "zpl"
        else "zpl"
      else pyLower language) := by
  simp only [HoneywellPrinter.print_label]
  split
  · split
    · rfl
    · rfl
  · rfl

theorem print_label_detect_count_auto_net (ts aid : String) (epc : Option String)
    (nm loc tt host : String) (port : Nat)
    (probe : ProbeResult) (net : NetEvent) (usb : Bool × String) (hh : host ≠ "") :
    ((HoneywellPrinter.print_label ts aid epc nm loc tt "network" host port "auto"
      probe net usb).events.countP isDetect) = 1 := by
  simp only [HoneywellPrinter.print_label]
  rw [if_neg hh]
  simp [isDetect, hh, List.countP_append, List.countP_cons]

theorem print_label_detect_count_not_auto (ts aid : String) (epc : Option String)
    (nm loc tt mode host : String) (port : Nat) (language : String)
    (probe : ProbeResult) (net : NetEvent) (usb : Bool × String)
    (h : language ≠ "auto") :
    ((HoneywellPrinter.print_label ts aid epc nm loc tt mode host port language
      probe net usb).events.countP isDetect) = 0 := by
  simp only [HoneywellPrinter.print_label, h]
  split
  · split
    · simp [isDetect]
    · simp [isDetect, List.countP_append, List.countP_cons]
  · simp [isDetect, List.countP_append, List.countP_cons]

theorem print_label_detect_count_usb (ts aid : String) (epc : Option String)
    (nm loc tt host : String) (port : Nat) (language : String)
    (probe : ProbeResult) (net : NetEvent) (usb : Bool × String) :
    ((HoneywellPrinter.print_label ts aid epc nm loc tt "usb" host port language
      probe net usb).events.countP isDetect) = 0 := by
  simp only [HoneywellPrinter.print_label]
  have hm : ("usb" : String) ≠ "network" := by decide
  simp [hm, isDetect, List.countP_append, List.countP_cons]

/- ──────────────────────────────── C10 ─────────────────────────────────── -/

/-- C10 counterexample: the claim quantifies over every input, but an
explicit language selector that is not already lowercase is returned
verbatim after lowercasing — here the selector AUTO misses the
case-sensitive "auto" test and print_label reports language_used
"auto", which the claim says can never happen. -/
theorem c10_lang_claim_false :
    (HoneywellPrinter.print_label "t" "A1" none "" "" "Standard" "usb" "" 9100
      "AUTO" ProbeResult.connFail (NetEvent.sent none) (true, "OK")).lang = "auto" ∧
    ¬ (("auto" : String) = "zpl" ∨ ("auto" : String) = "ipl") := by
  exact ⟨rfl, by decide⟩

/-- C10 (corrected): restricted to the three values the settings screen
can store — auto, zpl, ipl — print_label always reports language_used
as zpl or ipl, on every transport/host combination, including the
local-validation failure path (network mode with an empty host). -/
theorem c10_lang_amended (ts aid : String) (epc : Option String)
    (nm loc tt mode host : String) (port : Nat) (language : String)
    (probe : ProbeResult) (net : NetEvent) (usb : Bool × String)
    (h : language = "auto" ∨ language = "zpl" ∨ language = "ipl") :
    (HoneywellPrinter.print_label ts aid epc nm loc tt mode host port language
      probe net usb).lang = "zpl" ∨
    (HoneywellPrinter.print_label ts aid epc nm loc tt mode host port language
      probe net usb).lang = "ipl" := by
  rw [print_label_lang]
  rcases h with h | h | h <;> subst h
  · rw [if_pos rfl]
    split
    · split
      · exact Or.inr rfl
      · exact Or.inl rfl
    · exact Or.inl rfl
  · rw [if_neg (by decide)]
    exact Or.inl (by decide)
  · rw [if_neg (by decide)]
    exact Or.inr (by decide)

/-- C10 amended witness: the validation-failure path (network mode, no
host) under the auto setting still reports a concrete language. -/
theorem c10_lang_amended_witness :
    (HoneywellPrinter.print_label "t" "A1" none "" "" "Standard" "network" "" 9100
      "auto" ProbeResult.connFail (NetEvent.sent none) (true, "OK")).lang = "zpl" ∨
    (HoneywellPrinter.print_label "t" "A1" none "" "" "Standard" "network" "" 9100
      "auto" ProbeResult.connFail (NetEvent.sent none) (true, "OK")).lang = "ipl" :=
  c10_lang_amended "t" "A1" none "" "" "Standard" "network" "" 9100 "auto"
    ProbeResult.connFail (NetEvent.sent none) (true, "OK") (Or.inl rfl)

/- ─────────────────────── batch loop helper lemmas ─────────────────────── -/

theorem batchStep_counts (ts mode host : String) (port : Nat) (effLang : String)
    (probe : ProbeResult) (nets : Nat → NetEvent) (usbs : Nat → Bool × String)
    (row : Row) (st : BatchState) :
    (batchStep ts mode host port effLang probe nets usbs row st).success +
    (batchStep ts mode host port effLang probe nets usbs row st).errors +
    (batchStep ts mode host port effLang probe nets usbs row st).skipped =
    st.success + st.errors + st.skipped + 1 := by
  simp only [batchStep]
  split
  · dsimp only
    omega
  · split <;> dsimp only <;> omega

theorem batchStep_attempts (ts mode host : String) (port : Nat) (effLang : String)
    (probe : ProbeResult) (nets : Nat → NetEvent) (usbs : Nat → Bool × String)
    (row : Row) (st : BatchState) :
    (batchStep ts mode host port effLang probe nets usbs row st).attempts =
    st.attempts + (if pyStrip row.asset_id = "" then 0 else 1) := by
  simp only [batchStep]
  split
  · dsimp only
    omega
  · split <;> dsimp only <;> omega

theorem batchStep_backups (ts mode host : String) (port : Nat) (effLang : String)
    (probe : ProbeResult) (nets : Nat → NetEvent) (usbs : Nat → Bool × String)
    (row : Row) (st : BatchState) :
    (batchStep ts mode host port effLang probe nets usbs row st).backups.length +
      st.success =
    (batchStep ts mode host port effLang probe nets usbs row st).success +
      st.backups.length := by
  simp only [batchStep]
  split
  · dsimp only
    omega
  · split
    · dsimp only
      simp only [List.length_append, List.length_cons, List.length_nil]
      omega
    · dsimp only
      omega

theorem batchStep_events (ts mode host : String) (port : Nat) (effLang : String)
    (probe : ProbeResult) (nets : Nat → NetEvent) (usbs : Nat → Bool × String)
    (row : Row) (st : BatchState) :
    ∃ l, (batchStep ts mode host port effLang probe nets usbs row st).events =
      st.events ++ l := by
  simp only [batchStep]
  split
  · exact ⟨[], by simp⟩
  · split <;> exact ⟨_, rfl⟩

theorem batchStep_detect_count (ts mode host : String) (port : Nat)
    (effLang : String) (probe : ProbeResult) (nets : Nat → NetEvent)
    (usbs : Nat → Bool × String) (row : Row) (st : BatchState)
    (h : effLang ≠ "auto") :
    (batchStep ts mode host port effLang probe nets usbs row st).events.countP
      isDetect = st.events.countP isDetect := by
  simp only [batchStep]
  split
  · rfl
  · split <;> dsimp only <;>
      simp [List.countP_append,
        print_label_detect_count_not_auto _ _ _ _ _ _ _ _ _ _ _ _ _ h]

theorem batchStep_empty_id (ts mode host : String) (port : Nat) (effLang : String)
    (probe : ProbeResult) (nets : Nat → NetEvent) (usbs : Nat → Bool × String)
    (row : Row) (st : BatchState) (h : pyStrip row.asset_id = "") :
    batchStep ts mode host port effLang probe nets usbs row st =
      ⟨st.success, st.errors, st.skipped + 1, st.attempts, st.events, st.backups⟩ := by
  simp only [batchStep]
  rw [if_pos h]

theorem batchLoop_counts (ts mode host : String) (port : Nat) (effLang : String)
    (probe : ProbeResult) (nets : Nat → NetEvent) (usbs : Nat → Bool × String) :
    ∀ (rows : List Row) (st : BatchState),
      (batchLoop ts mode host port effLang probe nets usbs rows st).success +
      (batchLoop ts mode host port effLang probe nets usbs rows st).errors +
      (batchLoop ts mode host port effLang probe nets usbs rows st).skipped =
      st.success + st.errors + st.skipped + rows.length := by
  intro rows
  induction rows with
  | nil => intro st; simp [batchLoop]
  | cons row rest ih =>
    intro st
    rw [batchLoop]
    have h1 := ih (batchStep ts mode host port effLang probe nets usbs row st)
    have h2 := batchStep_counts ts mode host port effLang probe nets usbs row st
    simp only [List.length_cons]
    omega

theorem batchLoop_attempts (ts mode host : String) (port : Nat) (effLang : String)
    (probe : ProbeResult) (nets : Nat → NetEvent) (usbs : Nat → Bool × String) :
    ∀ (rows : List Row) (st : BatchState),
      (batchLoop ts mode host port effLang probe nets usbs rows st).attempts =
      st.attempts + rows.countP (fun r => pyStrip r.asset_id != "") := by
  intro rows
  induction rows with
  | nil => intro st; simp [batchLoop]
  | cons row rest ih =>
    intro st
    rw [batchLoop]
    have h1 := ih (batchStep ts mode host port effLang probe nets usbs row st)
    have h2 := batchStep_attempts ts mode host port effLang probe nets usbs row st
    rw [h1, h2, List.countP_cons]
    by_cases h : pyStrip row.asset_id = "" <;> simp [h] <;> omega

theorem batchLoop_backups (ts mode host : String) (port : Nat) (effLang : String)
    (probe : ProbeResult) (nets : Nat → NetEvent) (usbs : Nat → Bool × String) :
    ∀ (rows : List Row) (st : BatchState),
      (batchLoop ts mode host port effLang probe nets usbs rows st).backups.length +
        st.success =
      (batchLoop ts mode host port effLang probe nets usbs rows st).success +
        st.backups.length := by
  intro rows
  induction rows with
  | nil =>
    intro st
    simp only [batchLoop]
    omega
  | cons row rest ih =>
    intro st
    rw [batchLoop]
    have h1 := ih (batchStep ts mode host port effLang probe nets usbs row st)
    have h2 := batchStep_backups ts mode host port effLang probe nets usbs row st
    omega

theorem batchLoop_events_ext (ts mode host : String) (port : Nat) (effLang : String)
    (probe : ProbeResult) (nets : Nat → NetEvent) (usbs : Nat → Bool × String) :
    ∀ (rows : List Row) (st : BatchState),
      ∃ l, (batchLoop ts mode host port effLang probe nets usbs rows st).events =
        st.events ++ l := by
  intro rows
  induction rows with
  | nil => intro st; exact ⟨[], by simp [batchLoop]⟩
  | cons row rest ih =>
    intro st
    rw [batchLoop]
    obtain ⟨l1, h1⟩ := batchStep_events ts mode host port effLang probe nets usbs row st
    obtain ⟨l2, h2⟩ := ih (batchStep ts mode host port effLang probe nets usbs row st)
    exact ⟨l1 ++ l2, by rw [h2, h1, List.append_assoc]⟩

theorem batchLoop_detect_count (ts mode host : String) (port : Nat)
    (effLang : String) (probe : ProbeResult) (nets : Nat → NetEvent)
    (usbs : Nat → Bool × String) (h : effLang ≠ "auto") :
    ∀ (rows : List Row) (st : BatchState),
      (batchLoop ts mode host port effLang probe nets usbs rows st).events.countP
        isDetect = st.events.countP isDetect := by
  intro rows
  induction rows with
  | nil => intro st; simp [batchLoop]
  | cons row rest ih =>
    intro st
    rw [batchLoop]
    rw [ih (batchStep ts mode host port effLang probe nets usbs row st)]
    exact batchStep_detect_count ts mode host port effLang probe nets usbs row st h

theorem batchLoop_all_empty (ts mode host : String) (port : Nat) (effLang : String)
    (probe : ProbeResult) (nets : Nat → NetEvent) (usbs : Nat → Bool × String) :
    ∀ (rows : List Row) (st : BatchState), (∀ r ∈ rows, pyStrip r.asset_id = "") →
      batchLoop ts mode host port effLang probe nets usbs rows st =
        ⟨st.success, st.errors, st.skipped + rows.length, st.attempts, st.events,
         st.backups⟩ := by
  intro rows
  induction rows with
  | nil => intro st _; simp [batchLoop]
  | cons row rest ih =>
    intro st hall
    rw [batchLoop,
      batchStep_empty_id ts mode host port effLang probe nets usbs row st
        (hall row (by simp)),
      ih _ (fun r hr => hall r (by simp [hr]))]
    simp only [List.length_cons, BatchState.mk.injEq, eq_self_iff_true, true_and,
      and_true]
    omega


/- ──────────────────────────────── C8 ──────────────────────────────────── -/

/-- C8 (confirmed): under the auto selector, network transport with a
host probes exactly once and maps every detection answer other than ipl
— in particular unknown — to zpl; USB transport never probes and
defaults to zpl; and a batch resolves the language once, before the
first item: its whole event trace holds exactly one detection event and
that event comes first. -/
theorem c8_auto_resolution (ts aid : String) (epc : Option String)
    (nm loc tt host : String) (port : Nat) (probe : ProbeResult) (net : NetEvent)
    (usb : Bool × String) (nets : Nat → NetEvent) (usbs : Nat → Bool × String)
    (rows : List Row) :
    (host ≠ "" →
      ((HoneywellPrinter.print_label ts aid epc nm loc tt "network" host port
        "auto" probe net usb).events.countP isDetect = 1 ∧
       (HoneywellPrinter.print_label ts aid epc nm loc tt "network" host port
        "auto" probe net usb).lang =
        (if HoneywellPrinter.detect_language probe = "ipl" then "ipl" else "zpl"))) ∧
    ((HoneywellPrinter.print_label ts aid epc nm loc tt "usb" host port "auto"
        probe net usb).events.countP isDetect = 0 ∧
     (HoneywellPrinter.print_label ts aid epc nm loc tt "usb" host port "auto"
        probe net usb).lang = "zpl") ∧
    (host ≠ "" → rows ≠ [] →
      (batch_print ts rows "network" host port "auto" probe nets usbs).map
        (fun st => (st.events.countP isDetect, st.events.head?)) =
        some (1, some Ev.detect)) := by
  refine ⟨?_, ⟨print_label_detect_count_usb _ _ _ _ _ _ _ _ _ _ _ _, ?_⟩, ?_⟩
  · intro hh
    refine ⟨print_label_detect_count_auto_net _ _ _ _ _ _ _ _ _ _ _ hh, ?_⟩
    rw [print_label_lang]
    simp [hh]
  · rw [print_label_lang, if_pos rfl,
      if_neg (fun hc => absurd hc.1 (by decide))]
  · intro hh hrows
    simp only [batch_print]
    rw [if_neg hrows, if_pos ⟨trivial, trivial, hh⟩]
    dsimp only
    generalize hE : (if HoneywellPrinter.detect_language probe = "ipl"
      then ("ipl" : String) else "zpl") = E
    have hne : E ≠ "auto" := by rw [← hE]; split <;> decide
    simp only [Option.map_some']
    refine congrArg some ?_
    simp only [Prod.mk.injEq]
    constructor
    · rw [batchLoop_detect_count ts "network" host port E probe nets usbs hne rows
        ⟨0, 0, 0, 0, [Ev.detect], []⟩]
      rfl
    · obtain ⟨l, hl⟩ := batchLoop_events_ext ts "network" host port E probe nets
        usbs rows ⟨0, 0, 0, 0, [Ev.detect], []⟩
      rw [hl]
      rfl

/-- C8 witness at a concrete host, probe answer and one-row batch. -/
theorem c8_auto_resolution_witness :
    ((HoneywellPrinter.print_label "t" "A1" none "" "" "Tag" "network" "10.0.0.9"
      9100 "auto" (ProbeResult.response []) (NetEvent.sent none)
      (true, "OK")).events.countP isDetect = 1 ∧
     (HoneywellPrinter.print_label "t" "A1" none "" "" "Tag" "network" "10.0.0.9"
      9100 "auto" (ProbeResult.response []) (NetEvent.sent none)
      (true, "OK")).lang =
      (if HoneywellPrinter.detect_language (ProbeResult.response []) = "ipl"
        then "ipl" else "zpl")) ∧
    ((batch_print "t" [⟨"A1", "", "", "", ""⟩] "network" "10.0.0.9" 9100 "auto"
      (ProbeResult.response []) (fun _ => NetEvent.sent none)
      (fun _ => (true, "OK"))).map
        (fun st => (st.events.countP isDetect, st.events.head?)) =
      some (1, some Ev.detect)) := by
  have h := c8_auto_resolution "t" "A1" none "" "" "Tag" "10.0.0.9" 9100
    (ProbeResult.response []) (NetEvent.sent none) (true, "OK")
    (fun _ => NetEvent.sent none) (fun _ => (true, "OK")) [⟨"A1", "", "", "", ""⟩]
  exact ⟨h.1 (by decide), h.2.2 (by decide) (by decide)⟩

/- ──────────────────────────────── C9 ──────────────────────────────────── -/

/-- C9 (confirmed): the three batch counters always sum to the number of
input rows, so every row lands in exactly one of succeeded/failed/skipped
and no failure aborts the loop; attempts happen exactly for the rows
with a nonempty stripped asset id; and the concrete three-row batch
whose second row has a blank asset id, with every send succeeding, ends
as succeeded 2, failed 0, skipped 1. -/
theorem c9_batch_summary (ts mode host : String) (port : Nat) (effLang : String)
    (probe : ProbeResult) (nets : Nat → NetEvent) (usbs : Nat → Bool × String) :
    (∀ (rows : List Row) (st : BatchState),
      (batchLoop ts mode host port effLang probe nets usbs rows st).success +
      (batchLoop ts mode host port effLang probe nets usbs rows st).errors +
      (batchLoop ts mode host port effLang probe nets usbs rows st).skipped =
      st.success + st.errors + st.skipped + rows.length) ∧
    (∀ (rows : List Row) (st : BatchState),
      (batchLoop ts mode host port effLang probe nets usbs rows st).attempts =
      st.attempts + rows.countP (fun r => pyStrip r.asset_id != "")) ∧
    ((batch_print "2024-01-01 10:00"
        [⟨"HOSP-1", "", "Device A", "ICU", "Standard (Plastic)"⟩,
         ⟨" ", "", "Device B", "", "Standard (Plastic)"⟩,
         ⟨"HOSP-3", "E2001122334455", "Device C", "", "Standard (Plastic)"⟩]
        "network" "10.0.0.5" 9100 "auto" (ProbeResult.response [])
        (fun _ => NetEvent.sent (some [])) (fun _ => (true, "OK"))).map
        (fun st => (st.success, st.errors, st.skipped)) = some (2, 0, 1)) :=
  ⟨batchLoop_counts ts mode host port effLang probe nets usbs,
   batchLoop_attempts ts mode host port effLang probe nets usbs,
   by decide⟩

/- ──────────────────────────────── C4 ──────────────────────────────────── -/

/-- C4 (confirmed): a print request with an empty (stripped) asset id is
rejected locally before any I/O — the single-print handler returns a
rejected trace with no print call, no events and no backup, and the
batch loop counts such rows skipped without attempting anything: its
attempt counter counts exactly the nonempty rows, and a run over rows
that are all empty leaves every trace component untouched except the
skip counter. -/
theorem c4_empty_id_rejected (ts aidRaw epcRaw name location tagTypeRaw mode
    host : String) (port : Nat) (language : String) (probe : ProbeResult)
    (net : NetEvent) (usb : Bool × String) (effLang : String)
    (nets : Nat → NetEvent) (usbs : Nat → Bool × String) :
    (pyStrip aidRaw = "" →
      readEncodePrint ts aidRaw epcRaw name location tagTypeRaw mode host port
        language probe net usb = ⟨true, none, []⟩) ∧
    (∀ (rows : List Row) (st : BatchState),
      (batchLoop ts mode host port effLang probe nets usbs rows st).attempts =
        st.attempts + rows.countP (fun r => pyStrip r.asset_id != "")) ∧
    (∀ (rows : List Row) (st : BatchState), (∀ r ∈ rows, pyStrip r.asset_id = "") →
      batchLoop ts mode host port effLang probe nets usbs rows st =
        ⟨st.success, st.errors, st.skipped + rows.length, st.attempts, st.events,
         st.backups⟩) := by
  refine ⟨?_, batchLoop_attempts ts mode host port effLang probe nets usbs,
    batchLoop_all_empty ts mode host port effLang probe nets usbs⟩
  intro h
  simp only [readEncodePrint]
  rw [if_pos h]

/-- C4 witness: a blank-asset-id single request and a batch of two
blank rows, performing no I/O at all. -/
theorem c4_empty_id_rejected_witness :
    readEncodePrint "t" "   " "" "" "" "Standard (Plastic)" "network" "10.0.0.5"
      9100 "auto" (ProbeResult.response []) (NetEvent.sent (some []))
      (true, "OK") = ⟨true, none, []⟩ ∧
    batchLoop "t" "network" "10.0.0.5" 9100 "zpl" (ProbeResult.response [])
      (fun _ => NetEvent.sent (some [])) (fun _ => (true, "OK"))
      [⟨"", "", "", "", ""⟩, ⟨"  ", "", "", "", ""⟩] ⟨0, 0, 0, 0, [], []⟩ =
      ⟨0, 0, 2, 0, [], []⟩ := by
  have h := c4_empty_id_rejected "t" "   " "" "" "" "Standard (Plastic)" "network"
    "10.0.0.5" 9100 "auto" (ProbeResult.response []) (NetEvent.sent (some []))
    (true, "OK") "zpl" (fun _ => NetEvent.sent (some [])) (fun _ => (true, "OK"))
  refine ⟨h.1 (by decide), ?_⟩
  have h2 := h.2.2 [⟨"", "", "", "", ""⟩, ⟨"  ", "", "", "", ""⟩]
    ⟨0, 0, 0, 0, [], []⟩ (by decide)
  simpa using h2

/- ──────────────────────────────── C1 ──────────────────────────────────── -/

/-- C1 counterexample: with the language setting auto, network transport
and a printer that answers the probe with STX, the label is sent as IPL
(language_used is ipl) yet the single-print backup is written under the
zpl extension with ZPL contents, contradicting the claimed
dialect-matching name; and a batch item whose send fails writes no
backup at all, contradicting the claimed persist-even-on-failure. -/
theorem c1_backup_claim_false :
    ((readEncodePrint "2024" "A1" "" "N" "L" "Standard (Plastic)" "network"
        "10.0.0.5" 9100 "auto" (ProbeResult.response [2]) (NetEvent.sent (some []))
        (true, "OK")).res.map (fun r => r.lang) = some "ipl") ∧
    ((readEncodePrint "2024" "A1" "" "N" "L" "Standard (Plastic)" "network"
        "10.0.0.5" 9100 "auto" (ProbeResult.response [2]) (NetEvent.sent (some []))
        (true, "OK")).backups.map Prod.fst = ["A1.zpl"]) ∧
    ((batch_print "2024" [⟨"HOSP-9", "", "", "", ""⟩] "network" "10.0.0.5" 9100
        "zpl" (ProbeResult.response []) (fun _ => NetEvent.refused)
        (fun _ => (true, "OK"))).map (fun st => (st.errors, st.backups)) =
      some (1, [])) := by
  refine ⟨by decide, by decide, by decide⟩

/-- C1 (corrected): the single-print flow always writes exactly one
backup per non-rejected attempt — success or failure alike — named by
the stripped asset id, but its extension (and re-rendered contents)
follow the configured language setting, which selects ipl only when the
setting is exactly "ipl", not the language actually used; the batch
flow writes exactly one backup per successful item and none for failed
or skipped items. -/
theorem c1_backup_policy (ts aidRaw epcRaw name location tagTypeRaw mode
    host : String) (port : Nat) (language : String) (probe : ProbeResult)
    (net : NetEvent) (usb : Bool × String) (effLang : String)
    (nets : Nat → NetEvent) (usbs : Nat → Bool × String) :
    (pyStrip aidRaw ≠ "" →
      (readEncodePrint ts aidRaw epcRaw name location tagTypeRaw mode host port
        language probe net usb).backups.map Prod.fst =
        [pyStrip aidRaw ++ "." ++ (if language = "ipl" then "ipl" else "zpl")]) ∧
    (∀ (rows : List Row) (st : BatchState),
      (batchLoop ts mode host port effLang probe nets usbs rows st).backups.length +
        st.success =
      (batchLoop ts mode host port effLang probe nets usbs rows st).success +
        st.backups.length) := by
  refine ⟨?_, batchLoop_backups ts mode host port effLang probe nets usbs⟩
  intro h
  simp only [readEncodePrint]
  rw [if_neg h]
  simp

/-- C1 amended witness: a failed USB print under the ipl setting still
writes exactly the backup file B2.ipl. -/
theorem c1_backup_policy_witness :
    (readEncodePrint "t" "B2" "" "" "" "Tag" "usb" "" 9100 "ipl"
      ProbeResult.connFail (NetEvent.sent none) (false, "lpr failed")).backups.map
      Prod.fst =
      [pyStrip "B2" ++ "." ++ (if ("ipl" : String) = "ipl" then "ipl" else "zpl")] :=
  (c1_backup_policy "t" "B2" "" "" "" "Tag" "usb" "" 9100 "ipl"
    ProbeResult.connFail (NetEvent.sent none) (false, "lpr failed") "zpl"
    (fun _ => NetEvent.sent none) (fun _ => (true, "OK"))).1 (by decide)

/- ─────────────────── character lemmas for the C3 proofs ───────────────── -/

theorem hexDigit_ne_caret (n : Nat) : hexDigit n ≠ '^' := by
  unfold hexDigit
  have hgd : hexDigitChars.getD n '0' = (hexDigitChars.get? n).getD '0' := by
    simp [List.getD]
  rw [hgd]
  rcases h : hexDigitChars.get? n with _ | c
  · decide
  · have hc : c ∈ hexDigitChars := List.get?_mem h
    have hall : ∀ x ∈ hexDigitChars, x ≠ '^' := by decide
    simpa using hall c hc

theorem uEscape_no_caret (n : Nat) : '^' ∉ (uEscape n).data := by
  intro h
  unfold uEscape at h
  simp only [String.data, List.mem_cons, List.not_mem_nil, or_false] at h
  rcases h with h | h | h | h | h | h
  · exact absurd h (by decide)
  · exact absurd h (by decide)
  · exact hexDigit_ne_caret _ h.symm
  · exact hexDigit_ne_caret _ h.symm
  · exact hexDigit_ne_caret _ h.symm
  · exact hexDigit_ne_caret _ h.symm

theorem jsonEscapeChar_caret {c : Char} (h : '^' ∈ (jsonEscapeChar c).data) :
    c = '^' := by
  unfold jsonEscapeChar at h
  split at h
  · exact absurd h (by decide)
  · split at h
    · exact absurd h (by decide)
    · split at h
      · exact absurd h (by decide)
      · split at h
        · exact absurd h (by decide)
        · split at h
          · exact absurd h (by decide)
          · split at h
            · exact absurd h (by decide)
            · split at h
              · exact absurd h (by decide)
              · split at h
                · exact absurd h (uEscape_no_caret _)
                · split at h
                  · simp only [String.data, List.mem_cons, List.not_mem_nil,
                      or_false] at h
                    exact h.symm
                  · split at h
                    · exact absurd h (uEscape_no_caret _)
                    · rw [String.data_append] at h
                      rcases List.mem_append.mp h with h | h
                      · exact absurd h (uEscape_no_caret _)
                      · exact absurd h (uEscape_no_caret _)

theorem strConcat_mem {c : Char} :
    ∀ {l : List String}, c ∈ (strConcat l).data → ∃ s ∈ l, c ∈ s.data := by
  intro l
  induction l with
  | nil =>
    intro h
    simp only [strConcat] at h
    exact absurd h (List.not_mem_nil c)
  | cons s r ih =>
    intro h
    simp only [strConcat, String.data_append] at h
    rcases List.mem_append.mp h with h | h
    · exact ⟨s, by simp, h⟩
    · obtain ⟨s2, hs2, hc⟩ := ih h
      exact ⟨s2, by simp [hs2], hc⟩

theorem jsonString_no_caret {s : String} (h : '^' ∉ s.data) :
    '^' ∉ (jsonString s).data := by
  intro hc
  unfold jsonString at hc
  simp only [String.data_append] at hc
  rcases List.mem_append.mp hc with hc | hc
  · rcases List.mem_append.mp hc with hc | hc
    · exact absurd hc (by decide)
    · obtain ⟨e, he, hce⟩ := strConcat_mem hc
      obtain ⟨d, hd, hed⟩ := List.mem_map.mp he
      rw [← hed] at hce
      exact h (jsonEscapeChar_caret hce ▸ hd)
  · exact absurd hc (by decide)

theorem pyOr_no_char {x : Char} {a b : String} (ha : x ∉ a.data)
    (hb : x ∉ b.data) : x ∉ (pyOr a b).data := by
  unfold pyOr
  split
  · exact hb
  · exact ha

theorem pyOrOpt_falsy {e : Option String} (h : optTruthy e = false) (d : String) :
    pyOrOpt e d = d := by
  cases e with
  | none => rfl
  | some s =>
    simp only [optTruthy, bne_eq_false_iff_eq] at h
    simp [pyOrOpt, h]

theorem pySlice_no_char {x : Char} {s : String} (h : x ∉ s.data) (n : Nat) :
    x ∉ (pySlice s n).data :=
  fun hm => h (List.take_subset n s.data hm)

/- ───────────────── occurrence step lemmas for the patterns ────────────── -/

theorem zPat_step_field {f B : List Char} (hf : '^' ∉ f)
    (hB : ¬ zPat <:+: B) : ¬ zPat <:+: f ++ B := by
  apply no_occurrence_append ?_ hB ?_
  · intro h
    exact hf (h.subset (by decide))
  · intro k hk0 hkl
    left
    intro hs
    have h5 : zPat.length = 5 := by decide
    have hall : ∀ j, j < 5 → 0 < j → '^' ∈ zPat.take j := by decide
    exact hf (hs.subset (hall k (by omega) hk0))

theorem zPat_step_lit {lit B : List Char}
    (h1 : ¬ zPat <:+: lit)
    (h2 : ∀ j, j < 5 → 0 < j → ¬ zPat.take j <:+ lit)
    (hB : ¬ zPat <:+: B) : ¬ zPat <:+: lit ++ B := by
  apply no_occurrence_append h1 hB
  intro k hk0 hkl
  left
  have h5 : zPat.length = 5 := by decide
  exact h2 k (by omega) hk0

theorem iPat_step_lit {lit B : List Char}
    (h1 : ¬ iPat <:+: lit)
    (h2 : ∀ j, j < 9 → 0 < j → ¬ iPat.take j <:+ lit)
    (hB : ¬ iPat <:+: B) : ¬ iPat <:+: lit ++ B := by
  apply no_occurrence_append h1 hB
  intro k hk0 hkl
  left
  have h9 : iPat.length = 9 := by decide
  exact h2 k (by omega) hk0

theorem iPat_step_field {f B : List Char} (hf : ',' ∉ f)
    (hq : B.head? = some '"') (hB : ¬ iPat <:+: B) :
    ¬ iPat <:+: f ++ B := by
  apply no_occurrence_append ?_ hB ?_
  · intro h
    exact hf (h.subset (by decide))
  · intro k hk0 hkl
    have h9 : iPat.length = 9 := by decide
    by_cases h4 : 4 ≤ k
    · left
      intro hs
      have hall : ∀ j, j < 9 → 4 ≤ j → ',' ∈ iPat.take j := by decide
      exact hf (hs.subset (hall k (by omega) h4))
    · right
      intro hp
      obtain ⟨u, hu⟩ := hp
      have hne : iPat.drop k ≠ [] := by
        intro h0
        have hlen := congrArg List.length h0
        rw [List.length_drop, h9] at hlen
        simp at hlen
        omega
      have hh := head_of_append u hne
      rw [hu, hq] at hh
      have hbad : ∀ j, j < 4 → 0 < j → (iPat.drop j).head? ≠ some '"' := by decide
      exact hbad k (by omega) hk0 hh.symm

/- ─────────────── absence of the RFID directive (no payload) ───────────── -/

theorem zpl_no_rfwm (ts aid : String) (epc : Option String) (nm loc tt : String)
    (hts : '^' ∉ ts.data) (haid : '^' ∉ aid.data) (hnm : '^' ∉ nm.data)
    (hloc : '^' ∉ loc.data) (htt : '^' ∉ tt.data)
    (he : optTruthy epc = false) :
    ¬ zPat <:+: (HoneywellPrinter.zpl ts aid epc nm loc tt).data := by
  have hslice : '^' ∉ (pySlice (pyOr nm aid) 30).data :=
    pySlice_no_char (pyOr_no_char hnm haid) 30
  have hl : '^' ∉ (pyOr loc "—").data := pyOr_no_char hloc (by decide)
  have hqr : '^' ∉ (HoneywellPrinter.qrDataHW aid epc).data := by
    intro hc
    unfold HoneywellPrinter.qrDataHW at hc
    rw [pyOrOpt_falsy he] at hc
    simp only [String.data_append] at hc
    rcases List.mem_append.mp hc with hc | hc
    · rcases List.mem_append.mp hc with hc | hc
      · rcases List.mem_append.mp hc with hc | hc
        · rcases List.mem_append.mp hc with hc | hc
          · exact absurd hc (by decide)
          · exact jsonString_no_caret haid hc
        · exact absurd hc (by decide)
      · exact jsonString_no_caret (by decide) hc
    · exact absurd hc (by decide)
  have hdir : (if optTruthy epc then "^RFWM," ++ epc.getD "" ++ "\n" else "")
      = "" := by
    rw [he]
    rfl
  have hed : ("" : String).data = ([] : List Char) := rfl
  simp only [HoneywellPrinter.zpl, hdir, pyOrOpt_falsy he, hed,
    String.data_append, List.append_assoc, List.nil_append]
  refine zPat_step_lit (by decide) (by decide) ?_
  refine zPat_step_lit (by decide) (by decide) ?_
  refine zPat_step_lit (by decide) (by decide) ?_
  refine zPat_step_lit (by decide) (by decide) ?_
  refine zPat_step_lit (by decide) (by decide) ?_
  refine zPat_step_lit (by decide) (by decide) ?_
  refine zPat_step_field hslice ?_
  refine zPat_step_lit (by decide) (by decide) ?_
  refine zPat_step_lit (by decide) (by decide) ?_
  refine zPat_step_field haid ?_
  refine zPat_step_lit (by decide) (by decide) ?_
  refine zPat_step_lit (by decide) (by decide) ?_
  refine zPat_step_lit (by decide) (by decide) ?_
  refine zPat_step_lit (by decide) (by decide) ?_
  refine zPat_step_lit (by decide) (by decide) ?_
  refine zPat_step_field htt ?_
  refine zPat_step_lit (by decide) (by decide) ?_
  refine zPat_step_lit (by decide) (by decide) ?_
  refine zPat_step_field hl ?_
  refine zPat_step_lit (by decide) (by decide) ?_
  refine zPat_step_lit (by decide) (by decide) ?_
  refine zPat_step_lit (by decide) (by decide) ?_
  refine zPat_step_lit (by decide) (by decide) ?_
  refine zPat_step_field haid ?_
  refine zPat_step_lit (by decide) (by decide) ?_
  refine zPat_step_lit (by decide) (by decide) ?_
  refine zPat_step_lit (by decide) (by decide) ?_
  refine zPat_step_lit (by decide) (by decide) ?_
  refine zPat_step_field hqr ?_
  refine zPat_step_lit (by decide) (by decide) ?_
  refine zPat_step_lit (by decide) (by decide) ?_
  refine zPat_step_field hts ?_
  refine zPat_step_lit (by decide) (by decide) ?_
  decide

theorem ipl_no_rfid (ts aid : String) (epc : Option String) (nm loc tt : String)
    (hts : ',' ∉ ts.data) (haid : ',' ∉ aid.data) (hnm : ',' ∉ nm.data)
    (hloc : ',' ∉ loc.data) (htt : ',' ∉ tt.data)
    (he : optTruthy epc = false) :
    ¬ iPat <:+: (HoneywellPrinter.ipl ts aid epc nm loc tt).data := by
  have hslice : ',' ∉ (pySlice (pyOr nm aid) 28).data :=
    pySlice_no_char (pyOr_no_char hnm haid) 28
  have hl : ',' ∉ (pyOr loc "—").data := pyOr_no_char hloc (by decide)
  have hdir : (if optTruthy epc then
        "R 1,E200," ++ pyOrOpt epc "0000000000000000000000" ++ "\r\n"
      else "") = "" := by
    rw [he]
    rfl
  have hed : ("" : String).data = ([] : List Char) := rfl
  simp only [HoneywellPrinter.ipl]
  rw [hdir]
  simp only [pyOrOpt_falsy he, hed, String.data_append, List.append_assoc,
    List.nil_append]
  refine iPat_step_lit (by decide) (by decide) ?_
  refine iPat_step_lit (by decide) (by decide) ?_
  refine iPat_step_lit (by decide) (by decide) ?_
  refine iPat_step_lit (by decide) (by decide) ?_
  refine iPat_step_lit (by decide) (by decide) ?_
  refine iPat_step_lit (by decide) (by decide) ?_
  refine iPat_step_field hslice rfl ?_
  refine iPat_step_lit (by decide) (by decide) ?_
  refine iPat_step_lit (by decide) (by decide) ?_
  refine iPat_step_field haid rfl ?_
  refine iPat_step_lit (by decide) (by decide) ?_
  refine iPat_step_lit (by decide) (by decide) ?_
  refine iPat_step_lit (by decide) (by decide) ?_
  refine iPat_step_lit (by decide) (by decide) ?_
  refine iPat_step_lit (by decide) (by decide) ?_
  refine iPat_step_field htt rfl ?_
  refine iPat_step_lit (by decide) (by decide) ?_
  refine iPat_step_lit (by decide) (by decide) ?_
  refine iPat_step_field hl rfl ?_
  refine iPat_step_lit (by decide) (by decide) ?_
  refine iPat_step_lit (by decide) (by decide) ?_
  refine iPat_step_field haid rfl ?_
  refine iPat_step_lit (by decide) (by decide) ?_
  refine iPat_step_lit (by decide) (by decide) ?_
  refine iPat_step_field hts rfl ?_
  refine iPat_step_lit (by decide) (by decide) ?_
  refine iPat_step_lit (by decide) (by decide) ?_
  decide

/- ─────────────── presence of the RFID directive (payload) ─────────────── -/

theorem zpl_has_rfwm (ts aid e nm loc tt : String) (he : e ≠ "") :
    zPat <:+: (HoneywellPrinter.zpl ts aid (some e) nm loc tt).data := by
  have ht : optTruthy (some e) = true := by simp [optTruthy, he]
  have hdir : (if optTruthy (some e) then "^RFWM," ++ (some e).getD "" ++ "\n"
      else "") = "^RFWM," ++ e ++ "\n" := by
    rw [ht]
    rfl
  simp only [HoneywellPrinter.zpl, hdir, String.data_append, List.append_assoc]
  repeat
    first
    | exact inf_append_right _ (by decide)
    | apply inf_append_left

theorem ipl_has_rfid (ts aid e nm loc tt : String) (he : e ≠ "") :
    iPat <:+: (HoneywellPrinter.ipl ts aid (some e) nm loc tt).data := by
  have ht : optTruthy (some e) = true := by simp [optTruthy, he]
  have hdir : (if optTruthy (some e) then
        "R 1,E200," ++ pyOrOpt (some e) "0000000000000000000000" ++ "\r\n"
      else "") =
      "R 1,E200," ++ pyOrOpt (some e) "0000000000000000000000" ++ "\r\n" := by
    rw [ht]
    rfl
  simp only [HoneywellPrinter.ipl, hdir, String.data_append, List.append_assoc]
  repeat
    first
    | exact inf_append_right _ (by decide)
    | apply inf_append_left

theorem lg_zpl_has_rfwm (ts aid : String) (epc : Option String)
    (nm loc tt : String) :
    zPat <:+: (LabelGenerator.zpl ts aid epc nm loc tt).data := by
  simp only [LabelGenerator.zpl, String.data_append, List.append_assoc]
  repeat
    first
    | exact inf_append_right _ (by decide)
    | apply inf_append_left

/- ──────────────────────────────── C3 ──────────────────────────────────── -/

set_option maxRecDepth 4000 in
/-- C3 counterexample: the claim says every encoder omits the RFID
directive entirely when the tag payload is absent, but LabelGenerator.zpl
emits its RFWM line unconditionally — here with payload None the marker
still occurs in the output. -/
theorem c3_rfid_claim_false :
    optTruthy none = false ∧
    zPat <:+:
      (LabelGenerator.zpl "2024-01-01 00:00" "A1" none "Device" "ICU"
        "Standard").data := by
  exact ⟨rfl, by decide⟩

/-- C3 (corrected): the two HoneywellPrinter encoders contain their RFID
directive exactly when a tag payload is present — stated for label
fields that do not themselves contain the directive trigger characters
(no caret for ZPL, no comma for IPL), since a field spelling the marker
out would also make it occur — while LabelGenerator.zpl always contains
the ZPL RFID-write marker, with a zero placeholder when the payload is
absent. -/
theorem c3_rfid_directive (ts aid : String) (epc : Option String)
    (nm loc tt : String)
    (hts : '^' ∉ ts.data) (haid : '^' ∉ aid.data) (hnm : '^' ∉ nm.data)
    (hloc : '^' ∉ loc.data) (htt : '^' ∉ tt.data)
    (hts2 : ',' ∉ ts.data) (haid2 : ',' ∉ aid.data) (hnm2 : ',' ∉ nm.data)
    (hloc2 : ',' ∉ loc.data) (htt2 : ',' ∉ tt.data) :
    (∀ e : String, e ≠ "" → epc = some e →
      zPat <:+: (HoneywellPrinter.zpl ts aid epc nm loc tt).data ∧
      iPat <:+: (HoneywellPrinter.ipl ts aid epc nm loc tt).data) ∧
    (optTruthy epc = false →
      ¬ zPat <:+: (HoneywellPrinter.zpl ts aid epc nm loc tt).data ∧
      ¬ iPat <:+: (HoneywellPrinter.ipl ts aid epc nm loc tt).data) ∧
    zPat <:+: (LabelGenerator.zpl ts aid epc nm loc tt).data := by
  refine ⟨?_, ?_, lg_zpl_has_rfwm ts aid epc nm loc tt⟩
  · intro e he hee
    subst hee
    exact ⟨zpl_has_rfwm ts aid e nm loc tt he, ipl_has_rfid ts aid e nm loc tt he⟩
  · intro he
    exact ⟨zpl_no_rfwm ts aid epc nm loc tt hts haid hnm hloc htt he,
      ipl_no_rfid ts aid epc nm loc tt hts2 haid2 hnm2 hloc2 htt2 he⟩

/-- C3 witness: with a payload both HoneywellPrinter outputs contain
their directive; without one neither does. -/
theorem c3_rfid_directive_witness :
    (zPat <:+:
      (HoneywellPrinter.zpl "2024-01-01 00:00" "A1" (some "E2000011") "Device"
        "ICU" "Standard").data ∧
     iPat <:+:
      (HoneywellPrinter.ipl "2024-01-01 00:00" "A1" (some "E2000011") "Device"
        "ICU" "Standard").data) ∧
    (¬ zPat <:+:
      (HoneywellPrinter.zpl "2024-01-01 00:00" "A1" none "Device" "ICU"
        "Standard").data ∧
     ¬ iPat <:+:
      (HoneywellPrinter.ipl "2024-01-01 00:00" "A1" none "Device" "ICU"
        "Standard").data) := by
  have h1 := c3_rfid_directive "2024-01-01 00:00" "A1" (some "E2000011") "Device"
    "ICU" "Standard" (by decide) (by decide) (by decide) (by decide) (by decide)
    (by decide) (by decide) (by decide) (by decide) (by decide)
  have h2 := c3_rfid_directive "2024-01-01 00:00" "A1" none "Device" "ICU"
    "Standard" (by decide) (by decide) (by decide) (by decide) (by decide)
    (by decide) (by decide) (by decide) (by decide) (by decide)
  exact ⟨h1.1 "E2000011" (by decide) rfl, h2.2.1 rfl⟩

end RFIDM
